import Mathlib

/-!
# Verification of the kleinanzeigen-bot ad reconciliation engine

Shallow embedding of the decision logic of `kleinanzeigen_bot/__init__.py`
(`load_ads`, `publish_ad`, `delete_ad`, `__set_shipping_options`) and
`kleinanzeigen_bot/extract.py` (`extract_ad_id_from_ad_url`,
`_extract_shipping_info_from_ad_page`), together with proofs settling the
specification claims about them.

Python dictionaries holding ad configuration are modelled as association
lists over an opaque value type `Val`; Python truthiness is modelled by
`Val.truthy`.  Timestamps are modelled as seconds (natural numbers), so
`timedelta.days` becomes flooring division by 86400.
-/

namespace KB

/-- A Python value as stored in an ad-config dictionary: `None`, an integer,
or a string.  (`active`, a boolean, is modelled separately where needed.) -/
inductive Val where
  | vnull
  | vint (n : Int)
  | vstr (s : String)
deriving DecidableEq

/-- Python truthiness of a `Val`: `None`, `0` and `""` are falsy. -/
def Val.truthy : Val → Bool
  | .vnull => false
  | .vint n => n != 0
  | .vstr s => s != ""

/-- An ad-config dictionary (`ad_cfg` / `ad_cfg_orig` in the source):
an association list from field names to values. -/
abbrev AdDict := List (String × Val)

/-- Dictionary read.  After `apply_defaults` every schema key is present; a
missing key reads as `None`, matching `utils.safe_get`. -/
def getKey : AdDict → String → Val
  | [], _ => .vnull
  | kv :: rest, k => if kv.1 = k then kv.2 else getKey rest k

/-- Dictionary write (`d[k] = v`): replaces the first binding of `k`, or
appends one. -/
def setKey : AdDict → String → Val → AdDict
  | [], k, v => [(k, v)]
  | kv :: rest, k, v => if kv.1 = k then (k, v) :: rest else kv :: setKey rest k v

theorem getKey_setKey_self (d : AdDict) (k : String) (v : Val) :
    getKey (setKey d k v) k = v := by
  induction d with
  | nil => simp [setKey, getKey]
  | cons kv rest ih =>
    by_cases h : kv.1 = k
    · simp [setKey, getKey, h]
    · simp [setKey, getKey, h, ih]

theorem getKey_setKey_ne (d : AdDict) (k k' : String) (v : Val) (h : k' ≠ k) :
    getKey (setKey d k v) k' = getKey d k' := by
  have h2 : ¬ (k = k') := fun he => h he.symm
  induction d with
  | nil => simp [setKey, getKey, h2]
  | cons kv rest ih =>
    by_cases hk : kv.1 = k
    · have hkv : ¬ (kv.1 = k') := by rw [hk]; exact h2
      simp [setKey, getKey, hk, h2, hkv]
    · simp only [setKey, if_neg hk, getKey]
      by_cases hk' : kv.1 = k'
      · simp [hk']
      · simp [hk', ih]

/-! ## Selection policy (`KleinanzeigenBot.load_ads`)

`load_ads` walks the ad files and decides participation per ad.  The
selector string is classified once: when the regex `\d+[,\d+]*` matches,
the selector is split on commas and parsed as integer ids
(`use_specific_ads`); otherwise the names `"new"`/`"due"`/`"all"` (or any
other digit-free string) keep their named meaning.  We model the two shapes
with an inductive type. -/

/-- The `--ads` selector as classified by `load_ads`: either a digit-free
name (`all` / `new` / `due`), or a literal comma-separated list of integer
ids (which makes `use_specific_ads` true in the source). -/
inductive AdsSelector where
  | name (s : String)
  | ids (l : List Int)
deriving DecidableEq

/-- The fields of one effective (defaults-merged) ad record that the
selection policy reads.  `id`, `updated_on`, `created_on` are `none` when
absent or falsy; timestamps are seconds since an arbitrary epoch (the
source parses ISO strings with `parse_datetime`). -/
structure AdCfg where
  id : Option Int
  active : Bool
  updated_on : Option Nat
  created_on : Option Nat
  republication_interval : Nat
deriving DecidableEq

/-- `updated_on` when present, else `created_on` (the source tries
`ad_cfg["updated_on"]` first and falls back to `ad_cfg["created_on"]`). -/
def lastUpdatedOn (ad : AdCfg) : Option Nat :=
  match ad.updated_on with
  | some t => some t
  | none => ad.created_on

/-- `(datetime.utcnow() - last_updated_on).days`: whole days elapsed,
floored (for timestamps not in the future). -/
def adAgeDays (now t : Nat) : Nat := (now - t) / 86400

/-- Participation decision of `load_ads` for one ad (lines 297–326 of
`__init__.py`): the inactive skip runs first, then either the explicit-id
membership test, or the `new` / `due` checks.  `ignore_inactive` and
`check_id` are the keyword arguments of `load_ads` (both default `True`;
`download_ads` in `new` mode passes both as `False`). -/
def load_ads_participates (selector : AdsSelector) (ignore_inactive check_id : Bool)
    (now : Nat) (ad : AdCfg) : Bool :=
  if ignore_inactive && !ad.active then false
  else
    match selector with
    | .ids l =>
      match ad.id with
      | some i => l.contains i
      | none => false
    | .name s =>
      if s == "new" && ad.id.isSome && check_id then false
      else if s == "due" then
        match lastUpdatedOn ad with
        | none => true
        | some t => !(adAgeDays now t ≤ ad.republication_interval)
      else true

/-- The larger of the two timestamps that are present, if any.  Used to
state the claim's wording "the most recent of `updated_on`/`created_on`". -/
def mostRecentTimestamp (ad : AdCfg) : Option Nat :=
  match ad.updated_on, ad.created_on with
  | some a, some b => some (max a b)
  | some a, none => some a
  | none, some b => some b
  | none, none => none

/-- Participation under selector `due` as worded by the claim (spec side,
for comparison with `load_ads_participates`): `id` absent, or both
timestamps absent, or the most recent timestamp strictly older than
`republication_interval` days. -/
def dueClaimParticipates (now : Nat) (ad : AdCfg) : Bool :=
  ad.id.isNone
  || (ad.updated_on.isNone && ad.created_on.isNone)
  || (match mostRecentTimestamp ad with
      | none => false
      | some t => decide (ad.republication_interval * 86400 < now - t))

/-- Participation under an explicit id set as worded by the claim (spec
side): membership of the ad's id in the given set, nothing else. -/
def idsClaimParticipates (l : List Int) (ad : AdCfg) : Bool :=
  match ad.id with
  | some i => l.contains i
  | none => false

/-- C1 counterexample: an active ad with `id` absent, `updated_on` three
days old and `republication_interval = 7` participates according to the
claim's wording (its `id` is absent), but `load_ads` skips it — the `due`
branch never consults `id`. -/
theorem c1_due_id_absent_counterexample :
    dueClaimParticipates (100 * 86400) ⟨none, true, some (97 * 86400), none, 7⟩ = true
    ∧ load_ads_participates (.name "due") true true (100 * 86400)
        ⟨none, true, some (97 * 86400), none, 7⟩ = false := by
  constructor <;> decide

/-- C1 (amended): for an active ad under selector `due`, participation
holds iff the effective last-update timestamp (`updated_on` when present,
else `created_on`) is absent, or its whole-day age strictly exceeds
`republication_interval`; the ad's `id` plays no role.  In particular with
`republication_interval = 7`, an ad last updated 10 days ago participates
and one last updated 3 days ago does not. -/
theorem c1_due_selection :
    (∀ (now : Nat) (ad : AdCfg), ad.active = true →
      (load_ads_participates (.name "due") true true now ad = true ↔
        (match lastUpdatedOn ad with
         | none => True
         | some t => ad.republication_interval < adAgeDays now t)))
    ∧ load_ads_participates (.name "due") true true (100 * 86400)
        ⟨some 111, true, some (90 * 86400), none, 7⟩ = true
    ∧ load_ads_participates (.name "due") true true (100 * 86400)
        ⟨some 111, true, some (97 * 86400), none, 7⟩ = false := by
  refine ⟨?_, by decide, by decide⟩
  intro now ad hact
  simp only [load_ads_participates, hact]
  cases h : lastUpdatedOn ad with
  | none => simp [h]
  | some t => simp [h, Nat.not_le]

/-- C1 amended, witness: the universally quantified part applied to the
10-days-ago example. -/
theorem c1_due_selection_witness :
    load_ads_participates (.name "due") true true (100 * 86400)
      ⟨some 111, true, some (90 * 86400), none, 7⟩ = true :=
  (c1_due_selection.1 (100 * 86400) ⟨some 111, true, some (90 * 86400), none, 7⟩
    rfl).mpr (show (7 : Nat) < adAgeDays (100 * 86400) (90 * 86400) by decide)

/-- C2 counterexample: an inactive ad whose `id = 42` is in the explicit
id set `[42]` is claimed to participate, but `load_ads` (with its default
`ignore_inactive = True`, as used by the publish and delete commands)
skips inactive ads before the explicit-id check. -/
theorem c2_ids_inactive_counterexample :
    idsClaimParticipates [42] ⟨some 42, false, none, none, 7⟩ = true
    ∧ load_ads_participates (.ids [42]) true true 0
        ⟨some 42, false, none, none, 7⟩ = false := by
  constructor <;> decide

/-- C2 (amended): under a literal id set, an ad participates iff its `id`
is a member of the set AND the ad is not excluded as inactive (which it is
whenever `ignore_inactive` holds, i.e. for publish/delete runs, even with
explicit ids).  Explicit ids do override the `new`/`due` checks: the
result is independent of `check_id`, the current time and the ad's
timestamps. -/
theorem c2_ids_selection :
    ∀ (l : List Int) (ii ci : Bool) (now : Nat) (ad : AdCfg),
      load_ads_participates (.ids l) ii ci now ad =
        ((!ii || ad.active) && idsClaimParticipates l ad) := by
  intro l ii ci now ad
  unfold load_ads_participates idsClaimParticipates
  cases ii <;> cases hact : ad.active <;> cases ad.id <;> simp

/-! ## Publish success tail (`KleinanzeigenBot.publish_ad`, lines 737–750)

After the confirmation URL is recognized, `publish_ad` mutates the
*original* (as-authored) record and passes it to `utils.save_dict`:

    ad_cfg_orig["updated_on"] = datetime.utcnow().isoformat()
    if not ad_cfg["created_on"] and not ad_cfg["id"]:
        ad_cfg_orig["created_on"] = ad_cfg_orig["updated_on"]
    ad_id = int(current_url_query_params.get("adId", [])[0])
    ad_cfg_orig["id"] = ad_id
    utils.save_dict(ad_file, ad_cfg_orig)

`publish_ad_success` returns exactly the dictionary handed to `save_dict`.
`now` is the ISO timestamp string; `adId` is the integer parsed from the
confirmation URL's `adId` query parameter. -/

/-- The persisted original record after a successful publish. -/
def publish_ad_success (ad_cfg ad_cfg_orig : AdDict) (now : String) (adId : Int) : AdDict :=
  let orig1 := setKey ad_cfg_orig "updated_on" (.vstr now)
  let orig2 :=
    if !(getKey ad_cfg "created_on").truthy && !(getKey ad_cfg "id").truthy
    then setKey orig1 "created_on" (getKey orig1 "updated_on")
    else orig1
  setKey orig2 "id" (.vint adId)

/-- C3 counterexample: for an ad whose effective record has `created_on`
absent but `id = 123` (a previously published ad), the claim's "created_on
is set iff it was previously absent" predicts a fresh `created_on`, but the
code leaves it absent — the guard also requires `id` to be absent. -/
theorem c3_created_on_counterexample :
    (getKey [("id", .vint 123), ("created_on", .vnull)] "created_on").truthy = false
    ∧ getKey (publish_ad_success [("id", .vint 123), ("created_on", .vnull)]
        [("title", .vstr "Example listing 0001")] "2026-10-12T00:00:00" 987654321)
        "created_on" ≠ .vstr "2026-10-12T00:00:00" := by
  constructor <;> decide

/-- C3 (amended): after a successful publish the persisted original record
has `updated_on = now` and `id = adId` (the integer parsed from the
confirmation URL's `adId` parameter); `created_on` is set to that same
timestamp iff *both* `created_on` and `id` were absent (falsy) in the
effective record, and is left untouched otherwise. -/
theorem c3_publish_success_fields :
    ∀ (ad_cfg ad_cfg_orig : AdDict) (now : String) (adId : Int),
      getKey (publish_ad_success ad_cfg ad_cfg_orig now adId) "updated_on" = .vstr now
      ∧ getKey (publish_ad_success ad_cfg ad_cfg_orig now adId) "id" = .vint adId
      ∧ getKey (publish_ad_success ad_cfg ad_cfg_orig now adId) "created_on" =
          (if !(getKey ad_cfg "created_on").truthy && !(getKey ad_cfg "id").truthy
           then .vstr now else getKey ad_cfg_orig "created_on") := by
  intro ad_cfg ad_cfg_orig now adId
  unfold publish_ad_success
  refine ⟨?_, ?_, ?_⟩
  · rw [getKey_setKey_ne _ _ _ _ (by decide)]
    split
    · rw [getKey_setKey_ne _ _ _ _ (by decide), getKey_setKey_self]
    · rw [getKey_setKey_self]
  · rw [getKey_setKey_self]
  · rw [getKey_setKey_ne _ _ _ _ (by decide)]
    split
    · rw [getKey_setKey_self, getKey_setKey_self]
    · rw [getKey_setKey_ne _ _ _ _ (by decide)]

/-- C4: a publish run writes only `id`, `created_on` and `updated_on` back
into the original record; every other field reads unchanged afterwards. -/
theorem c4_publish_frame :
    ∀ (ad_cfg ad_cfg_orig : AdDict) (now : String) (adId : Int) (k : String),
      k ≠ "id" → k ≠ "created_on" → k ≠ "updated_on" →
      getKey (publish_ad_success ad_cfg ad_cfg_orig now adId) k = getKey ad_cfg_orig k := by
  intro ad_cfg ad_cfg_orig now adId k hid hcr hup
  unfold publish_ad_success
  rw [getKey_setKey_ne _ _ _ _ hid]
  split
  · rw [getKey_setKey_ne _ _ _ _ hcr, getKey_setKey_ne _ _ _ _ hup]
  · rw [getKey_setKey_ne _ _ _ _ hup]

/-- C4 witness: the frame theorem applied to the `title` field of a
concrete record. -/
theorem c4_publish_frame_witness :
    getKey (publish_ad_success [("id", .vnull), ("created_on", .vnull)]
        [("title", .vstr "Vintage bicycle frame"), ("price", .vstr "50")]
        "2026-10-12T00:00:00" 987654321) "title" =
      getKey [("title", .vstr "Vintage bicycle frame"), ("price", .vstr "50")] "title" :=
  c4_publish_frame [("id", .vnull), ("created_on", .vnull)]
    [("title", .vstr "Vintage bicycle frame"), ("price", .vstr "50")]
    "2026-10-12T00:00:00" 987654321 "title" (by decide) (by decide) (by decide)

/-! ## Shipping-option resolution, publish direction
(`KleinanzeigenBot.__set_shipping_options`, lines 847–871)

The source maps each requested option name through a fixed 8-entry table
to a (package size, carrier package) pair — a `KeyError` for unknown names
— then requires the mapped package sizes to form a singleton set, raising
`ValueError` otherwise.  The source iterates over `set(options)` (Python
sets iterate in arbitrary order); we model the set with `List.dedup`,
which preserves the success/failure behaviour and the size check.  The
source is only called with a non-empty option list; our model returns
`sizeNotUnique` for an empty list, where the source's tuple unpacking
would raise `ValueError` as well. -/

/-- The fixed publish-direction table: option name ↦ (package size,
carrier package). -/
def shipping_options_mapping : List (String × String × String) := [
  ("DHL_2", "Klein", "Paket 2 kg"),
  ("Hermes_Päckchen", "Klein", "Päckchen"),
  ("Hermes_S", "Klein", "S-Paket"),
  ("DHL_5", "Mittel", "Paket 5 kg"),
  ("Hermes_M", "Mittel", "M-Paket"),
  ("DHL_10", "Groß", "Paket 10 kg"),
  ("DHL_31,5", "Groß", "Paket 31,5 kg"),
  ("Hermes_L", "Groß", "L-Paket")]

/-- `shipping_options_mapping[option]` as a partial lookup. -/
def lookupShippingOption (o : String) : Option (String × String) :=
  (shipping_options_mapping.find? (fun e => e.1 == o)).map (fun e => e.2)

/-- The two failure modes of `__set_shipping_options`: `KeyError` for an
option name outside the table, `ValueError` for a non-singleton size set. -/
inductive ShippingError where
  | unknownOption
  | sizeNotUnique
deriving DecidableEq

/-- The list comprehension `[mapping[option] for option in options]`:
first missing key aborts with `unknownOption`. -/
def mapShippingOptions : List String → Except ShippingError (List (String × String))
  | [] => .ok []
  | o :: rest =>
    match lookupShippingOption o with
    | none => .error .unknownOption
    | some p =>
      match mapShippingOptions rest with
      | .error e => .error e
      | .ok ps => .ok (p :: ps)

/-- `shipping_size, = set(shipping_sizes)`: succeeds iff the mapped sizes
form a singleton set, yielding the size and the carrier packages. -/
def sizeCheck (mapped : List (String × String)) :
    Except ShippingError (String × List String) :=
  match (mapped.map Prod.fst).dedup with
  | [size] => .ok (size, mapped.map Prod.snd)
  | _ => .error .sizeNotUnique

/-- Shipping-option resolution for one ad: returns the unique package size
and the carrier packages to select, or the error raised. -/
def set_shipping_options (options : List String) :
    Except ShippingError (String × List String) :=
  match mapShippingOptions options.dedup with
  | .error e => .error e
  | .ok mapped => sizeCheck mapped

theorem mapShippingOptions_error_of_unknown (l : List String)
    (h : ∃ o ∈ l, lookupShippingOption o = none) :
    mapShippingOptions l = .error .unknownOption := by
  induction l with
  | nil => obtain ⟨o, ho, _⟩ := h; cases ho
  | cons a rest ih =>
    obtain ⟨o, ho, hnone⟩ := h
    unfold mapShippingOptions
    rcases List.mem_cons.mp ho with rfl | hmem
    · rw [hnone]
    · cases ha : lookupShippingOption a
      · rfl
      · rw [ih ⟨o, hmem, hnone⟩]

theorem mapShippingOptions_ok_of_known (l : List String)
    (h : ∀ o ∈ l, (lookupShippingOption o).isSome = true) :
    ∃ ps, mapShippingOptions l = .ok ps := by
  induction l with
  | nil => exact ⟨[], rfl⟩
  | cons a rest ih =>
    have ha := h a (List.mem_cons_self a rest)
    obtain ⟨p, hp⟩ := Option.isSome_iff_exists.mp ha
    obtain ⟨ps, hps⟩ := ih (fun o ho => h o (List.mem_cons_of_mem a ho))
    exact ⟨p :: ps, by unfold mapShippingOptions; rw [hp, hps]⟩

theorem mem_of_mapShippingOptions_ok (o : String) (p : String × String)
    (hp : lookupShippingOption o = some p) :
    ∀ (l : List String) (ps : List (String × String)),
      mapShippingOptions l = .ok ps → o ∈ l → p ∈ ps := by
  intro l
  induction l with
  | nil => intro ps _ ho; cases ho
  | cons a rest ih =>
    intro ps h ho
    unfold mapShippingOptions at h
    rcases List.mem_cons.mp ho with rfl | hmem
    · rw [hp] at h
      cases hrest : mapShippingOptions rest with
      | error e => rw [hrest] at h; cases h
      | ok qs =>
        rw [hrest] at h
        cases h
        exact List.mem_cons_self p qs
    · cases ha : lookupShippingOption a with
      | none => rw [ha] at h; cases h
      | some q =>
        rw [ha] at h
        cases hrest : mapShippingOptions rest with
        | error e => rw [hrest] at h; cases h
        | ok qs =>
          rw [hrest] at h
          cases h
          exact List.mem_cons_of_mem q (ih qs hrest hmem)

/-- C5: publish-direction shipping resolution fails with a `KeyError`
(`unknownOption`) for any option name outside the fixed table, and fails
with a `ValueError` (`sizeNotUnique`) whenever two requested options map
to different package sizes; `{DHL_5, Hermes_M}` (both "Mittel") succeeds
while `{DHL_5, DHL_10}` (mixed sizes) is rejected. -/
theorem c5_shipping_resolution :
    (∀ options : List String, (∃ o ∈ options, lookupShippingOption o = none) →
        set_shipping_options options = .error .unknownOption)
    ∧ (∀ (options : List String) (p q : String) (sp sq : String × String),
        (∀ o ∈ options, (lookupShippingOption o).isSome = true) →
        p ∈ options → q ∈ options →
        lookupShippingOption p = some sp → lookupShippingOption q = some sq →
        sp.1 ≠ sq.1 →
        set_shipping_options options = .error .sizeNotUnique)
    ∧ set_shipping_options ["DHL_5", "Hermes_M"] = .ok ("Mittel", ["Paket 5 kg", "M-Paket"])
    ∧ set_shipping_options ["DHL_5", "DHL_10"] = .error .sizeNotUnique := by
  refine ⟨?_, ?_, rfl, rfl⟩
  · intro options ⟨o, ho, hnone⟩
    unfold set_shipping_options
    rw [mapShippingOptions_error_of_unknown _ ⟨o, List.mem_dedup.mpr ho, hnone⟩]
  · intro options p q sp sq hall hp hq hsp hsq hne
    unfold set_shipping_options
    obtain ⟨ps, hps⟩ := mapShippingOptions_ok_of_known options.dedup
      (fun o ho => hall o (List.mem_dedup.mp ho))
    rw [hps]
    have hmp : sp ∈ ps :=
      mem_of_mapShippingOptions_ok p sp hsp _ _ hps (List.mem_dedup.mpr hp)
    have hmq : sq ∈ ps :=
      mem_of_mapShippingOptions_ok q sq hsq _ _ hps (List.mem_dedup.mpr hq)
    show sizeCheck ps = .error .sizeNotUnique
    unfold sizeCheck
    cases hd : (ps.map Prod.fst).dedup with
    | nil => rfl
    | cons s tail =>
      cases tail with
      | nil =>
        exfalso
        have h1 : sp.1 ∈ (ps.map Prod.fst).dedup :=
          List.mem_dedup.mpr (List.mem_map.mpr ⟨sp, hmp, rfl⟩)
        have h2 : sq.1 ∈ (ps.map Prod.fst).dedup :=
          List.mem_dedup.mpr (List.mem_map.mpr ⟨sq, hmq, rfl⟩)
        rw [hd] at h1 h2
        simp only [List.mem_singleton] at h1 h2
        exact hne (h1.trans h2.symm)
      | cons t tail2 => rfl

/-- C5 witness: the mixed-size failure derived by applying the
universally quantified part of the theorem to `{DHL_5, DHL_10}`. -/
theorem c5_shipping_resolution_witness :
    set_shipping_options ["DHL_5", "DHL_10"] = .error .sizeNotUnique :=
  c5_shipping_resolution.2.1 ["DHL_5", "DHL_10"] "DHL_5" "DHL_10"
    ("Mittel", "Paket 5 kg") ("Groß", "Paket 10 kg")
    (by decide) (by decide) (by decide) (by decide) (by decide) (by decide)

/-! ## Shipping-option resolution, extraction direction
(`AdExtractor._extract_shipping_info_from_ad_page`, lines 425–467)

The extraction engine matches the live price-in-cents against a remote
catalog of (carrier-option id, price, package size) entries and maps the
matching remote id(s) through its own `shipping_option_mapping` — which
has *nine* entries, including `DHL_005 ↦ "DHL_20"`.  `none` models the
early returns that downgrade the shipping type to `NOT_APPLICABLE` and
leave `shipping_options` as `None`. -/

/-- One entry of the remote shipping catalog fetched from the gateway. -/
structure RemoteShippingOption where
  id : String
  priceInEuroCent : Int
  packageSize : String
deriving DecidableEq

/-- The extraction-direction mapping from remote carrier-option ids to the
bot's option names (9 entries). -/
def shipping_option_mapping : List (String × String) := [
  ("DHL_001", "DHL_2"),
  ("DHL_002", "DHL_5"),
  ("DHL_003", "DHL_10"),
  ("DHL_004", "DHL_31,5"),
  ("DHL_005", "DHL_20"),
  ("HERMES_001", "Hermes_Päckchen"),
  ("HERMES_002", "Hermes_S"),
  ("HERMES_003", "Hermes_M"),
  ("HERMES_004", "Hermes_L")]

/-- `shipping_option_mapping.get(rid)`. -/
def lookupRemoteShippingOption (rid : String) : Option String :=
  (shipping_option_mapping.find? (fun e => e.1 == rid)).map (fun e => e.2)

/-- Map one remote id to the bot's option name, dropping it when the id is
not in the mapping or the name is in the configured exclusion set (the
conjuncts `opt["id"] in mapping and mapping[opt["id"]] not in excluded`). -/
def mapRemoteOption (excluded : List String) (rid : String) : Option String :=
  match lookupRemoteShippingOption rid with
  | some nm => if excluded.contains nm then none else some nm
  | none => none

/-- The `shipping_options` value produced by the extraction engine, given
the configuration flag `include_all_matching_shipping_options`, the
configured excluded-options set, the remote catalog and the price in
cents. -/
def extract_shipping_options :
    Bool → List String → List RemoteShippingOption → Int → Option (List String)
  | true, excluded, catalog, priceInCent =>
    match catalog.filter (fun o => o.priceInEuroCent == priceInCent) with
    | [] => none
    | m :: _ =>
      some (catalog.filterMap (fun o =>
        if o.packageSize == m.packageSize
        then mapRemoteOption excluded o.id
        else none))
  | false, excluded, catalog, priceInCent =>
    match catalog.find? (fun o => o.priceInEuroCent == priceInCent) with
    | none => none
    | some m =>
      match mapRemoteOption excluded m.id with
      | none => none
      | some nm => some [nm]

/-- C6 counterexample: a remote catalog entry `DHL_005` matching the live
price makes the extraction engine produce `["DHL_20"]`, but `"DHL_20"` is
not a key of the publish-direction 8-entry table, so re-encoding it for
publishing fails — the extraction mapping is not the inverse of the
publish table. -/
theorem c6_dhl20_counterexample :
    extract_shipping_options false [] [⟨"DHL_005", 549, "Groß"⟩] 549 = some ["DHL_20"]
    ∧ lookupShippingOption "DHL_20" = none
    ∧ set_shipping_options ["DHL_20"] = .error .unknownOption :=
  ⟨rfl, rfl, rfl⟩

theorem lookupRemoteShippingOption_mem (rid nm : String)
    (h : lookupRemoteShippingOption rid = some nm) :
    nm ∈ shipping_option_mapping.map Prod.snd := by
  unfold lookupRemoteShippingOption at h
  cases hf : shipping_option_mapping.find? (fun e => e.1 == rid) with
  | none => rw [hf] at h; cases h
  | some e =>
    rw [hf] at h
    simp only [Option.map_some'] at h
    cases h
    exact List.mem_map.mpr ⟨e, List.mem_of_find?_eq_some hf, rfl⟩

/-- C6 (amended): every option name the extraction engine can produce is a
value of its 9-entry mapping, and every such value *except* `"DHL_20"`
(produced from remote id `DHL_005`) is a key of the publish-direction
table; hence any extracted `shipping_options` value not containing
`"DHL_20"` re-encodes through the publish table, while `"DHL_20"` does
not. -/
theorem c6_extraction_names :
    (∀ (includeAll : Bool) (excluded : List String)
        (catalog : List RemoteShippingOption) (price : Int) (opts : List String),
      extract_shipping_options includeAll excluded catalog price = some opts →
      ∀ o ∈ opts, o ∈ shipping_option_mapping.map Prod.snd)
    ∧ (∀ nm ∈ shipping_option_mapping.map Prod.snd, nm ≠ "DHL_20" →
        (lookupShippingOption nm).isSome = true) := by
  constructor
  · have hmap : ∀ (excl : List String) (rid nm : String),
        mapRemoteOption excl rid = some nm →
        nm ∈ shipping_option_mapping.map Prod.snd := by
      intro excl rid nm h
      unfold mapRemoteOption at h
      cases hl : lookupRemoteShippingOption rid with
      | none => rw [hl] at h; cases h
      | some q =>
        rw [hl] at h
        by_cases hex : excl.contains q = true
        · simp only [if_pos hex] at h; cases h
        · simp only [if_neg hex] at h
          cases h
          exact lookupRemoteShippingOption_mem _ _ hl
    intro ia excl catalog price opts h o ho
    cases ia with
    | true =>
      simp only [extract_shipping_options] at h
      cases hm : catalog.filter (fun o => o.priceInEuroCent == price) with
      | nil => rw [hm] at h; cases h
      | cons m rest =>
        rw [hm] at h
        cases h
        obtain ⟨x, _, hfx⟩ := List.mem_filterMap.mp ho
        by_cases hsz : (x.packageSize == m.packageSize) = true
        · rw [if_pos hsz] at hfx
          exact hmap _ _ _ hfx
        · rw [if_neg hsz] at hfx; cases hfx
    | false =>
      simp only [extract_shipping_options] at h
      split at h
      · cases h
      · split at h
        · cases h
        · cases h
          rcases List.mem_singleton.mp ho with rfl
          rename_i hl
          exact hmap _ _ _ hl
  · decide

/-- C6 amended, witness: the re-encodability part applied to the
extraction-producible name `"DHL_2"`. -/
theorem c6_extraction_names_witness :
    (lookupShippingOption "DHL_2").isSome = true :=
  c6_extraction_names.2 "DHL_2" (by decide) (by decide)

/-! ## Price validation (`load_ads`, lines 346–350)

After asserting `price_type` is one of the four allowed enum values,
`load_ads` runs:

    if ad_cfg["price_type"] == "GIVE_AWAY":
        ensure(not safe_get(ad_cfg, "price"), ...)
    elif ad_cfg["price_type"] == "FIXED":
        assert_has_value("price")

`check_price_rules` is `true` iff neither `ensure` raises. -/

/-- Whether the price/price_type consistency check of `load_ads` passes. -/
def check_price_rules (price_type : String) (price : Val) : Bool :=
  if price_type == "GIVE_AWAY" then !price.truthy
  else if price_type == "FIXED" then price.truthy
  else true

/-- C7: validation fails for `GIVE_AWAY` with a non-empty `price` and for
`FIXED` with an empty/absent `price`; among those two price types, exactly
the combinations {`FIXED` with price present, `GIVE_AWAY` with price
absent} pass the check. -/
theorem c7_price_validation :
    ∀ (pt : String) (p : Val), pt = "GIVE_AWAY" ∨ pt = "FIXED" →
      (check_price_rules pt p = true ↔
        ((pt = "FIXED" ∧ p.truthy = true) ∨ (pt = "GIVE_AWAY" ∧ p.truthy = false))) := by
  intro pt p hpt
  rcases hpt with rfl | rfl
  · simp [check_price_rules]
  · simp [check_price_rules]

/-- C7 witness: a `FIXED` ad with price `"50"` passes the check. -/
theorem c7_price_validation_witness :
    check_price_rules "FIXED" (.vstr "50") = true :=
  (c7_price_validation "FIXED" (.vstr "50") (Or.inr rfl)).mpr (Or.inl ⟨rfl, by decide⟩)

/-! ## Category resolution (`load_ads`, lines 359–371)

    resolved_category_id = self.categories.get(ad_cfg["category"])
    if not resolved_category_id and ">" in ad_cfg["category"]:
        parent_category = ad_cfg["category"].rpartition(">")[0].strip()
        resolved_category_id = self.categories.get(parent_category)
        if resolved_category_id:
            LOG.warning(...)
    if resolved_category_id:
        ad_cfg["category"] = resolved_category_id

The whole block is guarded by `if ad_cfg["category"]:`, so an empty
category string is left untouched.  Logging (the fallback warning) is not
modelled.  The merged category map (`categories.yaml` + deprecated +
user-configured, later entries winning) is taken as a given association
list with unique keys, looked up like a Python dict. -/

/-- `self.categories.get(k)`. -/
def lookupCategory (cats : List (String × String)) (k : String) : Option String :=
  (cats.find? (fun e => e.1 == k)).map (fun e => e.2)

/-- Python falsiness of a `dict.get` result: `None` or the empty string. -/
def optFalsy : Option String → Bool
  | none => true
  | some s => s == ""

/-- Python `str.strip()` whitespace, modelled for ASCII. -/
def pyIsSpace (c : Char) : Bool :=
  c == ' ' || c == '\t' || c == '\n' || c == '\r' || c == '\x0b' || c == '\x0c'

/-- Python `str.strip()` over characters. -/
def stripChars (l : List Char) : List Char :=
  ((l.dropWhile pyIsSpace).reverse.dropWhile pyIsSpace).reverse

/-- `cat.rpartition(">")[0]`: everything before the last `'>'` (empty when
there is none), as characters. -/
def beforeLastGt (l : List Char) : List Char :=
  match (l.reverse.dropWhile (fun c => !(c == '>'))) with
  | [] => []
  | _ :: rest => rest.reverse

/-- `cat.rpartition(">")[0].strip()`. -/
def parentSegment (cat : String) : String :=
  String.mk (stripChars (beforeLastGt cat.data))

/-- The category value after the resolution block of `load_ads`. -/
def resolve_category (cats : List (String × String)) (cat : String) : String :=
  if cat == "" then cat
  else
    let r0 := lookupCategory cats cat
    let r := if optFalsy r0 && cat.data.contains '>'
             then lookupCategory cats (parentSegment cat)
             else r0
    match r with
    | some v => if v == "" then cat else v
    | none => cat

/-- C8: a category path with an exact entry in the merged map resolves to
that entry's id; a compound path (containing `>`) with no exact entry
resolves to the id of its parent segment (the text before the last `>`,
stripped) when the parent has an entry; in particular `"161/172>sonstige"`
with no exact entry but an entry for `"161/172"` resolves to the parent's
id. -/
theorem c8_category_resolution :
    (∀ (cats : List (String × String)) (cat v : String),
      cat ≠ "" → lookupCategory cats cat = some v → v ≠ "" →
      resolve_category cats cat = v)
    ∧ (∀ (cats : List (String × String)) (cat v : String),
      cat ≠ "" → lookupCategory cats cat = none →
      cat.data.contains '>' = true →
      lookupCategory cats (parentSegment cat) = some v → v ≠ "" →
      resolve_category cats cat = v)
    ∧ resolve_category [("161/172", "4926")] "161/172>sonstige" = "4926" := by
  refine ⟨?_, ?_, by decide⟩
  · intro cats cat v hcat hv hvne
    unfold resolve_category
    rw [if_neg (by simpa using hcat)]
    simp only [hv, optFalsy]
    rw [if_neg (by simp [hvne])]
    simp [hvne]
  · intro cats cat v hcat hnone hgt hpar hvne
    unfold resolve_category
    rw [if_neg (by simpa using hcat)]
    simp only [hnone, optFalsy, hgt, Bool.true_and, if_pos, hpar]
    simp [hvne]

/-- C8 witness: the exact-entry part applied to a concrete map. -/
theorem c8_category_resolution_witness :
    resolve_category [("161/172", "4926")] "161/172" = "4926" :=
  c8_category_resolution.1 [("161/172", "4926")] "161/172" "4926"
    (by decide) (by decide) (by decide)

/-! ## Delete orchestrator (`KleinanzeigenBot.delete_ad`, lines 507–537)

`delete_ad` scrapes a CSRF token (its absence is fatal), then either
deletes every remote listing whose id or title matches the local record
(`delete_old_ads_by_title` mode) or, otherwise, issues one delete call for
the exact id if present — that call passes
`valid_response_codes = [200, 404]`, so an already-gone listing (404) is
success.  Afterwards `ad_cfg["id"] = None` and `return True` run
unconditionally.  The Web Automation Interface's `request` is modelled
from the spec (§6): it fails unless the response status is among the valid
codes; `defaultValid` stands for the valid codes of a call that does not
pass an explicit list, and `st` gives the remote's response status per
deleted id. -/

/-- A listing from the previously fetched remote snapshot
(`published_ads`), with its id and title as read via
`published_ad.get("id", -1)` / `published_ad.get("title", "")`. -/
structure PublishedAd where
  id : Int
  title : String
deriving DecidableEq

/-- `ad_cfg["id"] == published_ad_id or ad_cfg["title"] == published_ad_title`
(a `None` id never equals an integer). -/
def matchesPublished (ad : AdDict) (p : PublishedAd) : Bool :=
  getKey ad "id" == Val.vint p.id || getKey ad "title" == Val.vstr p.title

/-- Failure modes of `delete_ad`: the fatal missing-CSRF-token `ensure`,
or a delete call whose response status is not accepted. -/
inductive DeleteError where
  | csrfMissing
  | httpError (status : Nat)
deriving DecidableEq

/-- One remote delete call: accepted iff the status is a valid code. -/
def delete_remote_call (validCodes : List Nat) (status : Nat) : Except DeleteError Unit :=
  if validCodes.contains status then .ok () else .error (.httpError status)

/-- The by-title loop: one delete call per matching published listing;
the first failing call aborts (the exception propagates). -/
def delete_by_title_loop (ad : AdDict) (st : Int → Nat) (dv : List Nat) :
    List PublishedAd → Except DeleteError Unit
  | [] => .ok ()
  | p :: rest =>
    if matchesPublished ad p then
      match delete_remote_call dv (st p.id) with
      | .error e => .error e
      | .ok _ => delete_by_title_loop ad st dv rest
    else delete_by_title_loop ad st dv rest

/-- The local ad's integer id (only read when `getKey ad "id"` is truthy;
after `load_ads` a truthy id is an integer). -/
def adIdInt (ad : AdDict) : Int :=
  match getKey ad "id" with
  | .vint n => n
  | _ => 0

/-- The remote-call part of `delete_ad`, per branch. -/
def delete_ad_outcome :
    Bool → AdDict → List PublishedAd → (Int → Nat) → List Nat → Except DeleteError Unit
  | true, ad, published, st, dv => delete_by_title_loop ad st dv published
  | false, ad, _, st, _ =>
    if (getKey ad "id").truthy then delete_remote_call [200, 404] (st (adIdInt ad))
    else .ok ()

/-- `delete_ad`: returns the mutated ad record (id cleared) and the
boolean result `True`, or the propagated error. -/
def delete_ad :
    Option String → Bool → AdDict → List PublishedAd → (Int → Nat) → List Nat →
    Except DeleteError (AdDict × Bool)
  | none, _, _, _, _, _ => .error .csrfMissing
  | some _, byTitle, ad, published, st, dv =>
    match delete_ad_outcome byTitle ad published st dv with
    | .error e => .error e
    | .ok _ => .ok (setKey ad "id" .vnull, true)

/-- C9: in non-by-title mode, a 404 ("already gone") response to the
remote delete call is success, not failure; and whenever `delete_ad`
returns, the local record's `id` is `None` — in every branch. -/
theorem c9_delete_ad :
    (∀ (tok : String) (ad : AdDict) (published : List PublishedAd)
        (st : Int → Nat) (dv : List Nat),
      (getKey ad "id").truthy = true → st (adIdInt ad) = 404 →
      delete_ad (some tok) false ad published st dv =
        .ok (setKey ad "id" .vnull, true))
    ∧ (∀ (csrf : Option String) (byTitle : Bool) (ad : AdDict)
        (published : List PublishedAd) (st : Int → Nat) (dv : List Nat)
        (out : AdDict × Bool),
      delete_ad csrf byTitle ad published st dv = .ok out →
      getKey out.1 "id" = .vnull) := by
  constructor
  · intro tok ad published st dv hid h404
    simp only [delete_ad, delete_ad_outcome]
    rw [hid, h404]
    rfl
  · intro csrf byTitle ad published st dv out h
    cases csrf with
    | none => cases h
    | some tok =>
      simp only [delete_ad] at h
      cases ho : delete_ad_outcome byTitle ad published st dv with
      | error e => rw [ho] at h; cases h
      | ok u =>
        rw [ho] at h
        cases h
        exact getKey_setKey_self ad "id" .vnull

/-- C9 witness: a concrete dead-listing delete (remote answers 404) that
succeeds and clears the id. -/
theorem c9_delete_ad_witness :
    delete_ad (some "token") false [("id", .vint 387), ("title", .vstr "Lamp shade")]
      [] (fun _ => 404) [200] =
      .ok (setKey [("id", .vint 387), ("title", .vstr "Lamp shade")] "id" .vnull, true) :=
  c9_delete_ad.1 "token" [("id", .vint 387), ("title", .vstr "Lamp shade")]
    [] (fun _ => 404) [200] (by decide) rfl

/-! ## Ad-id extraction from a URL
(`AdExtractor.extract_ad_id_from_ad_url`, lines 108–126 of `extract.py`)

The source first computes a provisional `id_part` from the raw URL (lines
116–117) that is dead code — it is unconditionally recomputed inside the
`try` block.  Inside the `try`, the only operations that can raise are
list indexing (`IndexError`, in fact unreachable: `split`/`rsplit` never
return an empty list) and `int()` (`ValueError` for a non-integer string);
both are caught and mapped to `-1` with a warning (logging not modelled).
Hence the function is total, which the shallow embedding reflects by
construction.  `pyInt` models Python's `int(str)` for ASCII input:
surrounding whitespace, an optional sign, and single underscores between
digits are accepted. -/

/-- `s.split(c, maxsplit=1)[0]`: the part before the first `c`. -/
def beforeFirstChar (c : Char) (l : List Char) : List Char :=
  l.takeWhile (fun x => !(x == c))

/-- `s.rsplit(c, maxsplit=1)[-1]`: the part after the last `c`. -/
def afterLastChar (c : Char) (l : List Char) : List Char :=
  (l.reverse.takeWhile (fun x => !(x == c))).reverse

/-- `s.rstrip(c)`: drop every trailing `c`. -/
def dropTrailingChar (c : Char) (l : List Char) : List Char :=
  (l.reverse.dropWhile (fun x => x == c)).reverse

/-- Digits of a Python int literal after the first: single underscores are
allowed between digits only. -/
def pyDigitsAux : List Char → Nat → Option Nat
  | [], acc => some acc
  | ['_'], _ => none
  | '_' :: c :: rest, acc =>
    if c.isDigit then pyDigitsAux rest (acc * 10 + (c.toNat - 48)) else none
  | c :: rest, acc =>
    if c.isDigit then pyDigitsAux rest (acc * 10 + (c.toNat - 48)) else none

/-- A non-empty digit run (with embedded underscores) as a natural. -/
def pyDigits : List Char → Option Nat
  | [] => none
  | c :: rest => if c.isDigit then pyDigitsAux rest (c.toNat - 48) else none

/-- Python `int(s)` (ASCII model): `none` when `int` raises `ValueError`. -/
def pyInt (s : String) : Option Int :=
  match stripChars s.data with
  | [] => none
  | '+' :: rest => (pyDigits rest).map Int.ofNat
  | '-' :: rest => (pyDigits rest).map (fun n => -(n : Int))
  | l => (pyDigits l).map Int.ofNat

/-- `AdExtractor.extract_ad_id_from_ad_url`: strip the query string,
strip trailing slashes, take the last path segment, take the part before
its first hyphen, parse it as an int — or return `-1`. -/
def extract_ad_id_from_ad_url (url : String) : Int :=
  match pyInt (String.mk (beforeFirstChar '-'
      (afterLastChar '/' (dropTrailingChar '/' (beforeFirstChar '?' url.data))))) with
  | some n => n
  | none => -1

/-- The claim's wording (spec side): the integer formed by the part before
the first hyphen of the last path segment, after stripping any query
string and trailing slashes; `-1` whenever that part is not a valid
integer. -/
def extractAdIdClaim (url : String) : Int :=
  (pyInt (String.mk (beforeFirstChar '-'
      (afterLastChar '/' (dropTrailingChar '/' (beforeFirstChar '?' url.data)))))).getD (-1)

/-- C10: `extract_ad_id_from_ad_url` is total over all URL strings (by
construction: every raising step of the source is covered by its
`except (IndexError, ValueError)` handler) and agrees everywhere with the
claimed strip-query / strip-slashes / last-segment / before-first-hyphen /
parse-or-`-1` description; concrete runs on a regular ad URL, a URL with a
query string, and a non-numeric URL behave as claimed. -/
theorem c10_extract_ad_id :
    (∀ url : String, extract_ad_id_from_ad_url url = extractAdIdClaim url)
    ∧ extract_ad_id_from_ad_url
        "https://www.kleinanzeigen.de/s-anzeige/fahrrad-28-zoll/2468013579-217-4376"
        = 2468013579
    ∧ extract_ad_id_from_ad_url
        "https://www.kleinanzeigen.de/s-anzeige/rad/2468013579-217-4376?utm=x"
        = 2468013579
    ∧ extract_ad_id_from_ad_url "https://www.kleinanzeigen.de/s-anzeige/abc/" = -1 := by
  refine ⟨?_, by decide, by decide, by decide⟩
  intro url
  unfold extract_ad_id_from_ad_url extractAdIdClaim
  cases pyInt (String.mk (beforeFirstChar '-'
      (afterLastChar '/' (dropTrailingChar '/' (beforeFirstChar '?' url.data))))) with
  | none => rfl
  | some n => rfl

end KB
